import Mathlib

/-!
Shallow embedding of the conversation core of the `ignatius` debate-bot
repository.

The embedding covers:
* `Message` / `Conversation` (src/ignatius/models/message.py,
  src/ignatius/models/conversation.py): roles, text trimming, validation,
  `add_message`, `to_conversation_string`, mongoengine-style `clean` and
  document validation;
* the AI service (src/ignatius/services/ai_service.py):
  `get_prompt_template` with its catalog fallback, `_generate_response`
  error classification, `generate_debate_response`;
* the conversation service (src/ignatius/services/conversation_service.py)
  and repository (src/ignatius/database/repositories/base.py):
  `create_conversation`, `get_conversation`, `save_conversation`;
* the API turn flow (src/ignatius/api/v1/conversation.py,
  `create_conversation` endpoint) as `handleTurn`.

Conventions: Python in-place mutation is explicit state passing; a method
that can raise returns the post-call object state paired with an
`Except`; the wall clock is an explicit `now : Nat` parameter; the
external JSON decoder (`json.loads`) and the OpenAI transport are
boundary capabilities passed as parameters (`parse`, `ModelOutput`);
Python `str.strip` is `pyStrip`.
-/

/-- Whitespace test used by `str.strip` (ASCII fragment, as in Lean's
`Char.isWhitespace`). -/
def isPySpace (ch : Char) : Bool := ch.isWhitespace

/-- Python `str.strip` on the underlying character list: drop whitespace
from the front, then from the back. -/
def pyStripList (l : List Char) : List Char :=
  ((l.dropWhile isPySpace).reverse.dropWhile isPySpace).reverse

/-- Python `str.strip`. -/
def pyStrip (s : String) : String := String.mk (pyStripList s.data)

/-- Exception taxonomy of the service layer
(src/ignatius/services/exceptions.py plus mongoengine's
`ValidationError`, builtin `ValueError`/`KeyError`, and the repository's
`RepositoryError`). In Python, `openAIError` and `responseParsingError`
are subclasses of `BotError`; the constructors here are the concrete
dynamic classes of raised exceptions. -/
inductive SvcError where
  | validationError (msg : String)
  | valueError (msg : String)
  | notFoundError (msg : String)
  | botError (msg : String)
  | openAIError (msg : String)
  | responseParsingError (msg : String)
  | keyError (msg : String)
  | repositoryError (msg : String)
deriving DecidableEq, Repr

/-- `str(e)` of an exception: its message. -/
def SvcError.msg : SvcError → String
  | .validationError m => m
  | .valueError m => m
  | .notFoundError m => m
  | .botError m => m
  | .openAIError m => m
  | .responseParsingError m => m
  | .keyError m => m
  | .repositoryError m => m

/-- A single conversation turn (models/message.py `Message`). -/
structure Message where
  role : String
  text : String
  timestamp : Nat
deriving DecidableEq, Repr

/-- `Message.ROLE_CHOICES`. -/
def ROLE_CHOICES : List String := ["user", "bot"]

/-- `Message.MAX_TEXT_LENGTH`. -/
def MAX_TEXT_LENGTH : Nat := 2000

/-- `Message.clean` (models/message.py lines 28-33): strip the text in
place, then reject if it is empty. It does NOT check `MAX_TEXT_LENGTH`;
that is a field constraint enforced only by full document validation. -/
def Message.clean (m : Message) : Except SvcError Message :=
  let stripped := pyStrip m.text
  if stripped = "" then
    .error (.validationError "Message text cannot be empty or only whitespace")
  else
    .ok { m with text := stripped }

/-- mongoengine field validation of a `Message` (`StringField` with
`choices=ROLE_CHOICES` for `role`, `min_length=1, max_length=2000` for
`text`), run together with `clean` by `Document.validate` at save time. -/
def Message.validateFull (m : Message) : Except SvcError Message :=
  match m.clean with
  | .error e => .error e
  | .ok m' =>
    if m'.role ∈ ROLE_CHOICES then
      if m'.text.length ≥ 1 ∧ m'.text.length ≤ MAX_TEXT_LENGTH then
        .ok m'
      else
        .error (.validationError "String value is too long")
    else
      .error (.validationError "Value must be one of the permitted values")

/-- The conversation aggregate (models/conversation.py `Conversation`).
`id` is `none` until the store assigns one at first save. -/
structure Conversation where
  id : Option String
  topic : Option String
  viewpoint : Option String
  messages : List Message
  created_at : Nat
  updated_at : Nat
deriving DecidableEq, Repr

/-- `Conversation.MAX_TOPIC_LENGTH`. -/
def MAX_TOPIC_LENGTH : Nat := 200

/-- `Conversation.add_message` (models/conversation.py lines 58-81).
Returns the post-call state of the (in Python, in-place mutated)
conversation together with the returned message or raised exception:
the role check and `Message.clean` both happen before the append, so on
either failure the conversation is returned unchanged. -/
def Conversation.add_message (c : Conversation) (role text : String) (now : Nat) :
    Conversation × Except SvcError Message :=
  if role ∈ ROLE_CHOICES then
    match Message.clean { role := role, text := text, timestamp := now } with
    | .error e => (c, .error e)
    | .ok msg =>
      ({ c with messages := c.messages ++ [msg], updated_at := now }, .ok msg)
  else
    (c, .error (.validationError ("Invalid role: " ++ role)))

/-- `Conversation.clean` (models/conversation.py lines 44-56): strip
topic and viewpoint, require at least one message, stamp `updated_at`. -/
def Conversation.clean (c : Conversation) (now : Nat) : Except SvcError Conversation :=
  let c1 := { c with topic := c.topic.map pyStrip, viewpoint := c.viewpoint.map pyStrip }
  if c1.messages = [] then
    .error (.validationError "Conversation must have at least one message")
  else
    .ok { c1 with updated_at := now }

/-- Validate every embedded message, as `Document.validate` does for an
`EmbeddedDocumentListField`. -/
def validateMessages : List Message → Except SvcError (List Message)
  | [] => .ok []
  | m :: ms =>
    match m.validateFull with
    | .error e => .error e
    | .ok m' =>
      match validateMessages ms with
      | .error e => .error e
      | .ok ms' => .ok (m' :: ms')

/-- mongoengine `Document.validate` on a `Conversation`: run `clean`,
then field validation (topic/viewpoint `max_length=200`, embedded
message validation). -/
def Conversation.validateDoc (c : Conversation) (now : Nat) : Except SvcError Conversation :=
  match c.clean now with
  | .error e => .error e
  | .ok c1 =>
    match validateMessages c1.messages with
    | .error e => .error e
    | .ok msgs =>
      if (c1.topic.getD "").length ≤ MAX_TOPIC_LENGTH ∧
          (c1.viewpoint.getD "").length ≤ MAX_TOPIC_LENGTH then
        .ok { c1 with messages := msgs }
      else
        .error (.validationError "String value is too long")

/-- `Conversation.to_conversation_string` (models/conversation.py lines
108-113): accumulate one `"<role>: <text>"` entry per message into a
list, then join with newlines, exactly as the Python loop does. -/
def Conversation.to_conversation_string (c : Conversation) : String :=
  let lines := c.messages.foldl (fun acc msg => acc ++ [msg.role ++ ": " ++ msg.text]) []
  String.intercalate "\n" lines

/-- `Conversation.get_last_user_message` / `get_last_bot_message`
generalized over the role: scan from the most recent message. -/
def Conversation.get_last_message_by (c : Conversation) (role : String) : Option Message :=
  c.messages.reverse.find? (fun m => m.role == role)

/-- The loaded prompt catalog (`AIService._prompts`, a YAML mapping
`type -> style -> template source`), modeled as nested association
lists. -/
abbrev Catalog : Type := List (String × List (String × String))

/-- `self._prompts[prompt_type][style]` as a total lookup: `none` is
Python's `KeyError`. -/
def catalogLookup (cat : Catalog) (ptype style : String) : Option String :=
  match cat.find? (fun p => p.1 == ptype) with
  | none => none
  | some (_, styles) => ((styles.find? (fun q => q.1 == style)).map Prod.snd)

/-- `AIService.get_prompt_template` (ai_service.py lines 57-64): try the
exact `(prompt_type, style)` key; on `KeyError` fall back to the literal
`self._prompts['debate']['default']` entry — and if that is itself
absent, the second `KeyError` escapes the handler. -/
def getPromptTemplate (cat : Catalog) (prompt_type style : String) : Except SvcError String :=
  match catalogLookup cat prompt_type style with
  | some t => .ok t
  | none =>
    match catalogLookup cat "debate" "default" with
    | some t => .ok t
    | none => .error (.keyError "default")

/-- `string.Template.substitute(conversation=..., topic=...)` restricted
to the two bound variables. -/
def templateSubstitute (tmpl conversationText topicText : String) : String :=
  (tmpl.replace "$conversation" conversationText).replace "$topic" topicText

/-- `str(conversation.topic)` as passed to `substitute`: Python renders
`None` as the string "None". -/
def topicForPrompt : Option String → String
  | some t => t
  | none => "None"

/-- Behavior of the OpenAI transport on one call
(`self._client.chat.completions.create`): either the call raises, or it
returns `response.choices[0].message.content` (which may be null). -/
inductive ModelOutput where
  | transportFailure (msg : String)
  | content (text : Option String)
deriving DecidableEq, Repr

/-- A parsed JSON object restricted to string-valued fields, the shape
`generate_debate_response` reads (`text`, `topic`). -/
abbrev JObj : Type := List (String × String)

/-- `ai_response[key]` presence/lookup. -/
def jsonGet (obj : JObj) (key : String) : Option String :=
  (obj.find? (fun p => p.1 == key)).map Prod.snd

/-- `AIService._generate_response` (ai_service.py lines 74-104), with
the JSON decoder `parse` (`json.loads`; `none` = `JSONDecodeError`) and
the transport outcome as parameters. A transport failure, and an
empty/null `content`, both surface as `OpenAIError` (the inner
`OpenAIError("Empty response from OpenAI")` is re-caught by the generic
handler and re-wrapped, staying an `OpenAIError`); undecodable content
surfaces as `ResponseParsingError`. -/
def generateResponse (parse : String → Option JObj) (out : ModelOutput)
    (prompt : String) : Except SvcError JObj :=
  match out with
  | .transportFailure m =>
    .error (.openAIError ("Failed to generate response: " ++ m))
  | .content none =>
    .error (.openAIError "Failed to generate response: Empty response from OpenAI")
  | .content (some s) =>
    if s = "" then
      .error (.openAIError "Failed to generate response: Empty response from OpenAI")
    else
      match parse s with
      | none => .error (.responseParsingError "Invalid JSON response from AI")
      | some obj => .ok obj

/-- `AIService.generate_debate_response` (ai_service.py lines 106-157)
with the default catalog template path (the API layer never passes a
custom template). Returns the post-call conversation state paired with
the result: the topic is overwritten before the bot message is appended,
and `BotError`/`ValueError` subclasses re-raise unchanged while anything
else (a `ValidationError` from `add_message`, a `KeyError` escaping
`get_prompt_template`) is wrapped into a plain `BotError`. -/
def generateDebateResponse (parse : String → Option JObj) (out : ModelOutput)
    (prompts : Catalog) (prompt_type style : String) (c : Conversation) (now : Nat) :
    Conversation × Except SvcError Conversation :=
  if c.messages = [] then
    (c, .error (.valueError "Conversation must have at least one message"))
  else
    match getPromptTemplate prompts prompt_type style with
    | .error e => (c, .error (.botError ("Failed to generate AI response: " ++ e.msg)))
    | .ok tmpl =>
      let prompt := templateSubstitute tmpl c.to_conversation_string (topicForPrompt c.topic)
      match generateResponse parse out prompt with
      | .error e => (c, .error e)
      | .ok obj =>
        match jsonGet obj "text" with
        | none => (c, .error (.responseParsingError "Response missing required 'text' field"))
        | some text =>
          let c1 :=
            match jsonGet obj "topic" with
            | some tp => if tp = "" then c else { c with topic := some tp }
            | none => c
          match c1.add_message "bot" text now with
          | (c2, .error e) =>
            (c2, .error (.botError ("Failed to generate AI response: " ++ e.msg)))
          | (c2, .ok _) => (c2, .ok c2)

/-- The Mongo collection of conversations keyed by id. -/
structure Store where
  convs : List (String × Conversation)
deriving DecidableEq, Repr

/-- `MongoRepository.get_by_id` success path: `objects.get(id=...)`,
`none` on `DoesNotExist`. -/
def Store.getById (s : Store) (id : String) : Option Conversation :=
  (s.convs.find? (fun p => p.1 == id)).map Prod.snd

/-- Replace the binding for `id`, or append it. -/
def storeUpsert : List (String × Conversation) → String → Conversation →
    List (String × Conversation)
  | [], id, c => [(id, c)]
  | (k, v) :: rest, id, c =>
    if k == id then (id, c) :: rest else (k, v) :: storeUpsert rest id c

/-- `bson.ObjectId.is_valid` on a string: 24 hexadecimal characters. -/
def objectIdIsValid (id : String) : Bool :=
  id.length == 24 && id.data.all (fun ch => ch.isDigit ||
    ('a' ≤ ch && ch ≤ 'f') || ('A' ≤ ch && ch ≤ 'F'))

/-- `MongoRepository.save` (base.py lines 39-53): `entity.validate()`
then `entity.save()`; a `ValidationError` becomes a `RepositoryError`.
The saved document gets `newId` if it has no id yet. -/
def repoSave (store : Store) (c : Conversation) (newId : String) (now : Nat) :
    Except SvcError Conversation × Store :=
  match c.validateDoc now with
  | .error e => (.error (.repositoryError ("Validation failed: " ++ e.msg)), store)
  | .ok c1 =>
    let id := c1.id.getD newId
    let c2 := { c1 with id := some id }
    (.ok c2, ⟨storeUpsert store.convs id c2⟩)

/-- `ConversationService.create_conversation`
(conversation_service.py lines 17-45): reject an empty message, then
`repository.create_conversation` (fresh `Conversation`, `add_message`
with the user turn, `save`); a `RepositoryError` is re-raised as
`ValidationError(str(e))`. -/
def createConversationSvc (store : Store) (message : String) (topic : Option String)
    (newId : String) (now : Nat) : Except SvcError Conversation × Store :=
  if message = "" ∨ pyStrip message = "" then
    (.error (.valueError "Message cannot be empty"), store)
  else
    let c0 : Conversation :=
      { id := none, topic := topic, viewpoint := none, messages := []
        created_at := now, updated_at := now }
    match c0.add_message "user" message now with
    | (_, .error e) => (.error e, store)
    | (c1, .ok _) =>
      match repoSave store c1 newId now with
      | (.error e, s1) => (.error (.validationError e.msg), s1)
      | (.ok c2, s1) => (.ok c2, s1)

/-- `ConversationService.get_conversation`
(conversation_service.py lines 47-90): empty id → `ValueError`; not a
valid ObjectId → `ValueError("Invalid conversation ID format")`, both
before the store is consulted; absent id → `ConversationNotFoundError`;
otherwise optionally append the user message (skipped silently when the
new message is empty or whitespace-only). -/
def getConversation (store : Store) (conversation_id : String)
    (new_message : Option String) (now : Nat) : Except SvcError Conversation :=
  if conversation_id = "" then
    .error (.valueError "Conversation ID cannot be empty")
  else if objectIdIsValid conversation_id = false then
    .error (.valueError "Invalid conversation ID format")
  else
    match store.getById conversation_id with
    | none =>
      .error (.notFoundError ("Conversation with ID " ++ conversation_id ++ " not found"))
    | some conv =>
      match new_message with
      | none => .ok conv
      | some m =>
        if m = "" ∨ pyStrip m = "" then .ok conv
        else
          match conv.add_message "user" m now with
          | (_, .error e) => .error e
          | (c1, .ok _) => .ok c1

/-- `ConversationService.save_conversation`
(conversation_service.py lines 92-115): `repository.save_conversation`;
a `RepositoryError` is re-raised as `ValidationError(str(e))`. -/
def saveConversationSvc (store : Store) (c : Conversation) (newId : String) (now : Nat) :
    Except SvcError Conversation × Store :=
  match repoSave store c newId now with
  | (.error e, s1) => (.error (.validationError e.msg), s1)
  | (.ok c1, s1) => (.ok c1, s1)

/-- The POST /conversations turn (api/v1/conversation.py lines 16-57)
past request decoding: reject an empty message; create or fetch the
conversation; `generate_debate_response` with the default
('debate', 'default') selector; save. The resulting store is returned
alongside the outcome: every failure short-circuits the steps after it
and leaves the store as it stood at that point. -/
def handleTurn (store : Store) (conversation_id : Option String) (message : String)
    (parse : String → Option JObj) (out : ModelOutput) (prompts : Catalog)
    (newId : String) (now : Nat) : Except SvcError Conversation × Store :=
  if message = "" ∨ pyStrip message = "" then
    (.error (.valueError "Message is required and cannot be empty"), store)
  else
    let fetched : Except SvcError Conversation × Store :=
      match conversation_id with
      | none => createConversationSvc store message none newId now
      | some cid =>
        match getConversation store cid (some message) now with
        | .error e => (.error e, store)
        | .ok conv => (.ok conv, store)
    match fetched with
    | (.error e, s1) => (.error e, s1)
    | (.ok conv, s1) =>
      match generateDebateResponse parse out prompts "debate" "default" conv now with
      | (_, .error e) => (.error e, s1)
      | (_, .ok c2) =>
        match saveConversationSvc s1 c2 newId now with
        | (.error e, s2) => (.error e, s2)
        | (.ok c3, s2) => (.ok c3, s2)

/-! Concrete sample values used by witnesses and counterexamples. -/

/-- A one-message seed conversation. -/
def sampleConv : Conversation :=
  { id := none, topic := none, viewpoint := none
    messages := [{ role := "user", text := "hi", timestamp := 0 }]
    created_at := 0, updated_at := 0 }

/-- A 2001-character text, one character over `MAX_TEXT_LENGTH`. -/
def xs2001 : String := String.mk (List.replicate 2001 'x')

/-- A catalog holding a ('debate','default') template and a
('chat','default') template, but no ('chat','fancy') one. -/
def cexCatalog : Catalog :=
  [("debate", [("default", "D")]), ("chat", [("default", "C")])]

/-- A catalog with no ('debate','default') entry at all. -/
def cexCatalogNoDebate : Catalog := [("chat", [("default", "C")])]

/-- A syntactically valid ObjectId string (24 hex characters). -/
def oid1 : String := "0123456789abcdef01234567"

/-- Another valid ObjectId string, absent from `sampleStore`. -/
def oid2 : String := "ffffffffffffffffffffffff"

/-- A store holding `sampleConv` under id `oid1`. -/
def sampleStore : Store := ⟨[(oid1, { sampleConv with id := some oid1 })]⟩

/-- The conversation the service creates from the message "hello" at
time 3 with fresh id `oid1`. -/
def createdConv : Conversation :=
  { id := some oid1, topic := none, viewpoint := none
    messages := [{ role := "user", text := "hello", timestamp := 3 }]
    created_at := 3, updated_at := 3 }

/-- A JSON decoder that fails on every input (every reply is malformed). -/
def parseNone : String → Option JObj := fun _ => none

/-- A JSON decoder returning an object without a "text" field. -/
def parseNoText : String → Option JObj := fun _ => some [("topic", "T")]

/-- A JSON decoder returning a well-formed debate reply. -/
def parseGood : String → Option JObj :=
  fun _ => some [("topic", "Pets"), ("text", "Dogs rule")]

/-- A JSON decoder returning a reply with a text but no topic. -/
def parseNoTopic : String → Option JObj := fun _ => some [("text", "Dogs rule")]

/-! Helper lemmas. -/

theorem pyStrip_empty : pyStrip "" = "" := rfl

theorem dropWhile_replicate_x (n : Nat) :
    (List.replicate n 'x').dropWhile isPySpace = List.replicate n 'x' := by
  cases n with
  | zero => rfl
  | succ m => rw [List.replicate_succ, List.dropWhile_cons_of_neg (by decide)]

theorem pyStrip_xs2001 : pyStrip xs2001 = xs2001 := by
  show String.mk (pyStripList (List.replicate 2001 'x')) = xs2001
  unfold pyStripList
  rw [dropWhile_replicate_x, List.reverse_replicate, dropWhile_replicate_x,
    List.reverse_replicate]
  rfl

theorem xs2001_length : xs2001.length = 2001 := by
  show (List.replicate 2001 'x').length = 2001
  rw [List.length_replicate]

theorem xs2001_ne_empty : xs2001 ≠ "" := by
  intro h
  have h0 : xs2001.length = 0 := by rw [h]; rfl
  rw [xs2001_length] at h0
  exact absurd h0 (by decide)

/-- `add_message` never touches the topic field, whether it raises or
appends. -/
theorem add_message_topic (c : Conversation) (role text : String) (now : Nat) :
    (c.add_message role text now).1.topic = c.topic := by
  unfold Conversation.add_message
  split
  · split <;> rfl
  · rfl

/-- The only exception `add_message` can raise is a `ValidationError`. -/
theorem add_message_error_validation (c : Conversation) (role text : String) (now : Nat)
    (e : SvcError) (h : (c.add_message role text now).2 = .error e) :
    ∃ m, e = SvcError.validationError m := by
  by_cases hrole : role ∈ ROLE_CHOICES
  · by_cases htext : pyStrip text = ""
    · simp [Conversation.add_message, Message.clean, hrole, htext] at h
      exact ⟨_, h.symm⟩
    · simp [Conversation.add_message, Message.clean, hrole, htext] at h
  · simp [Conversation.add_message, hrole] at h
    exact ⟨_, h.symm⟩

/-- Accumulating one rendered entry per element into a list, as the
transcript loop does, is the map over the list. -/
theorem foldl_append_singleton (f : Message → String) (l : List Message)
    (acc : List String) :
    l.foldl (fun a msg => a ++ [f msg]) acc = acc ++ l.map f := by
  induction l generalizing acc with
  | nil => simp
  | cons m ms ih => simp [List.foldl_cons, ih]

/-- A successful `validateMessages` on a non-empty list yields a
non-empty list. -/
theorem validateMessages_ok_ne_nil {l l' : List Message}
    (h : validateMessages l = .ok l') (hne : l ≠ []) : l' ≠ [] := by
  cases l with
  | nil => exact absurd rfl hne
  | cons m ms =>
    unfold validateMessages at h
    split at h
    · simp at h
    · split at h
      · simp at h
      · simp at h
        simp [← h]

/-- What a successful `Conversation.clean` returns: the messages are
untouched, `updated_at` is stamped, `created_at` is kept, and the
conversation had at least one message. -/
theorem Conversation.clean_ok {c c1 : Conversation} {now : Nat}
    (h : c.clean now = .ok c1) :
    c1.messages = c.messages ∧ c1.updated_at = now ∧
      c1.created_at = c.created_at ∧ c.messages ≠ [] := by
  simp only [Conversation.clean] at h
  split at h
  · simp at h
  · rename_i hne
    simp at h
    refine ⟨?_, ?_, ?_, ?_⟩
    · rw [← h]
    · rw [← h]
    · rw [← h]
    · simpa using hne

/-- A successfully validated document keeps at least one message, is
stamped with `now`, and keeps its creation time. -/
theorem Conversation.validateDoc_ok {c c' : Conversation} {now : Nat}
    (h : c.validateDoc now = .ok c') :
    c'.messages ≠ [] ∧ c'.updated_at = now ∧ c'.created_at = c.created_at := by
  unfold Conversation.validateDoc at h
  split at h
  · simp at h
  · rename_i c1 hclean
    obtain ⟨hm, hu, hc, hne⟩ := Conversation.clean_ok hclean
    split at h
    · simp at h
    · rename_i msgs hmsgs
      split at h
      · simp at h
        have hne' : msgs ≠ [] := validateMessages_ok_ne_nil hmsgs (hm ▸ hne)
        constructor
        · rw [← h]; simpa using hne'
        · rw [← h]
          exact ⟨hu, hc⟩
      · simp at h

/-- What a successful `repoSave` guarantees about the saved document. -/
theorem repoSave_ok {store s' : Store} {c c' : Conversation} {newId : String} {now : Nat}
    (h : repoSave store c newId now = (.ok c', s')) :
    c'.messages ≠ [] ∧ c'.updated_at = now ∧ c'.created_at = c.created_at := by
  unfold repoSave at h
  split at h
  · simp at h
  · rename_i c1 hval
    obtain ⟨hne, hu, hc⟩ := Conversation.validateDoc_ok hval
    simp at h
    obtain ⟨h1, _⟩ := h
    constructor
    · rw [← h1]; simpa using hne
    · rw [← h1]
      exact ⟨hu, hc⟩

/-- C5: for every role in {user, bot} and every text whose trimmed form
is non-empty and at most `MAX_TEXT_LENGTH`, `add_message` succeeds,
appends exactly one message carrying that role and the trimmed text at
the end of the list, returns that message, and strictly advances
`updated_at` (given that the clock has advanced past the previous
`updated_at`). -/
theorem add_message_valid_appends (c : Conversation) (role text : String) (now : Nat)
    (hrole : role ∈ ROLE_CHOICES) (htext : pyStrip text ≠ "")
    (hlen : (pyStrip text).length ≤ MAX_TEXT_LENGTH) (hnow : c.updated_at < now) :
    (c.add_message role text now).2 =
      .ok { role := role, text := pyStrip text, timestamp := now } ∧
    (c.add_message role text now).1.messages =
      c.messages ++ [{ role := role, text := pyStrip text, timestamp := now }] ∧
    c.updated_at < (c.add_message role text now).1.updated_at := by
  simp only [Conversation.add_message, Message.clean, if_pos hrole, if_neg htext]
  exact ⟨trivial, trivial, hnow⟩

/-- C5 witness at concrete input. -/
theorem add_message_valid_appends_witness :
    ("user" ∈ ROLE_CHOICES ∧ pyStrip "  hi  " ≠ "" ∧
      (pyStrip "  hi  ").length ≤ MAX_TEXT_LENGTH ∧ sampleConv.updated_at < 7) ∧
    ((sampleConv.add_message "user" "  hi  " 7).2 =
        .ok { role := "user", text := pyStrip "  hi  ", timestamp := 7 } ∧
      (sampleConv.add_message "user" "  hi  " 7).1.messages =
        sampleConv.messages ++ [{ role := "user", text := pyStrip "  hi  ", timestamp := 7 }] ∧
      sampleConv.updated_at < (sampleConv.add_message "user" "  hi  " 7).1.updated_at) :=
  ⟨⟨by decide, by decide, by decide, by decide⟩,
    add_message_valid_appends sampleConv "user" "  hi  " 7
      (by decide) (by decide) (by decide) (by decide)⟩

/-- C1 (amended): `add_message` raises `ValidationError` and leaves the
conversation untouched for every text that trims to the empty string and
for every role outside {user, bot}; an over-long text is NOT rejected
here (length is enforced only by document validation at save time). -/
theorem add_message_invalid_rejected (c : Conversation) (role text : String) (now : Nat)
    (h : pyStrip text = "" ∨ role ∉ ROLE_CHOICES) :
    (c.add_message role text now).1 = c ∧
    ∃ m, (c.add_message role text now).2 = .error (.validationError m) := by
  by_cases hrole : role ∈ ROLE_CHOICES
  · have htext : pyStrip text = "" := h.resolve_right (fun hn => hn hrole)
    simp only [Conversation.add_message, Message.clean, if_pos hrole, if_pos htext]
    exact ⟨trivial, _, rfl⟩
  · simp only [Conversation.add_message, if_neg hrole]
    exact ⟨trivial, _, rfl⟩

/-- C1 witness at concrete input (whitespace-only text). -/
theorem add_message_invalid_rejected_witness :
    (pyStrip "   " = "" ∨ ("user" : String) ∉ ROLE_CHOICES) ∧
    ((sampleConv.add_message "user" "   " 7).1 = sampleConv ∧
      ∃ m, (sampleConv.add_message "user" "   " 7).2 = .error (.validationError m)) :=
  ⟨Or.inl (by decide),
    add_message_invalid_rejected sampleConv "user" "   " 7 (Or.inl (by decide))⟩

/-- C1 counterexample: a 2001-character text exceeds `MAX_TEXT_LENGTH`
(2000), yet `add_message` does not raise: it appends the message and
returns it, because `Message.clean` — the only validation `add_message`
runs — checks emptiness-after-trim but not the length bound. -/
theorem add_message_overlength_accepted_cex :
    MAX_TEXT_LENGTH < xs2001.length ∧
    MAX_TEXT_LENGTH < (pyStrip xs2001).length ∧
    (sampleConv.add_message "user" xs2001 5).2 =
      .ok { role := "user", text := xs2001, timestamp := 5 } ∧
    (sampleConv.add_message "user" xs2001 5).1.messages =
      sampleConv.messages ++ [{ role := "user", text := xs2001, timestamp := 5 }] := by
  have hstrip := pyStrip_xs2001
  have step : sampleConv.add_message "user" xs2001 5 =
      ({ sampleConv with
          messages := sampleConv.messages ++ [{ role := "user", text := xs2001, timestamp := 5 }],
          updated_at := 5 },
        .ok { role := "user", text := xs2001, timestamp := 5 }) := by
    unfold Conversation.add_message Message.clean
    rw [if_pos (show ("user" : String) ∈ ROLE_CHOICES by decide)]
    dsimp only
    rw [hstrip, if_neg xs2001_ne_empty]
  refine ⟨?_, ?_, ?_, ?_⟩
  · rw [xs2001_length]; decide
  · rw [hstrip, xs2001_length]; decide
  · rw [step]
  · rw [step]

/-- C7: the transcript is the newline-join of one `"<role>: <text>"`
entry per message, in insertion order; as a pure function of the
conversation it is deterministic, so two renderings of an unmutated
conversation are identical. -/
theorem to_conversation_string_transcript (c : Conversation) :
    c.to_conversation_string =
      String.intercalate "\n" (c.messages.map (fun m => m.role ++ ": " ++ m.text)) ∧
    c.to_conversation_string = c.to_conversation_string := by
  constructor
  · unfold Conversation.to_conversation_string
    rw [foldl_append_singleton]
    simp
  · rfl

/-- `add_message` never touches the creation time. -/
theorem add_message_created_at (c : Conversation) (role text : String) (now : Nat) :
    (c.add_message role text now).1.created_at = c.created_at := by
  unfold Conversation.add_message
  split
  · split <;> rfl
  · rfl

/-- The post-call conversation of `add_message` is either untouched (an
exception was raised) or has exactly the new message appended. -/
theorem add_message_fst_cases (c : Conversation) (role text : String) (now : Nat) :
    (c.add_message role text now).1 = c ∨
    ((c.add_message role text now).1.messages =
        c.messages ++ [{ role := role, text := pyStrip text, timestamp := now }] ∧
      (c.add_message role text now).1.created_at = c.created_at ∧
      (c.add_message role text now).1.updated_at = now) := by
  unfold Conversation.add_message Message.clean
  split
  · dsimp only
    split
    · rename_i heq
      split at heq
      · exact Or.inl rfl
      · simp at heq
    · rename_i msg heq
      split at heq
      · simp at heq
      · simp at heq
        refine Or.inr ⟨?_, rfl, rfl⟩
        simp [← heq]
  · exact Or.inl rfl

/-- C6: the conversation invariants hold after creation and are
preserved by `add_message`: a successfully created conversation has a
non-empty message list and `created_at ≤ updated_at`; `add_message`
keeps both invariants (whether it raises or appends, given a clock not
behind `created_at`); and appending leaves every previously stored
message unchanged in content and relative order (the old list is a
prefix of the new one — no reordering, no deduplication). -/
theorem conversation_invariants_preserved
    (store : Store) (message : String) (topic : Option String) (newId : String)
    (now : Nat) (conv : Conversation) (s' : Store)
    (c : Conversation) (role text : String)
    (hc : createConversationSvc store message topic newId now = (.ok conv, s'))
    (hne : c.messages ≠ []) (hts : c.created_at ≤ c.updated_at)
    (hnow : c.created_at ≤ now) :
    (conv.messages ≠ [] ∧ conv.created_at ≤ conv.updated_at) ∧
    ((c.add_message role text now).1.messages ≠ [] ∧
      (c.add_message role text now).1.created_at ≤ (c.add_message role text now).1.updated_at) ∧
    (c.add_message role text now).1.messages.take c.messages.length = c.messages := by
  refine ⟨?_, ?_, ?_⟩
  · simp only [createConversationSvc] at hc
    split at hc
    · simp at hc
    · split at hc
      · simp at hc
      · rename_i c1 m heq
        split at hc
        · simp at hc
        · rename_i c2 s1 heq2
          simp at hc
          obtain ⟨hconv, _⟩ := hc
          obtain ⟨hne2, hu2, hc2⟩ := repoSave_ok heq2
          have hcreated : c1.created_at = now := by
            have h1 := add_message_created_at
              ({ id := none, topic := topic, viewpoint := none, messages := [],
                 created_at := now, updated_at := now } : Conversation) "user" message now
            rw [heq] at h1
            exact h1
          constructor
          · rw [← hconv]; exact hne2
          · rw [← hconv, hu2, hc2, hcreated]
  · rcases add_message_fst_cases c role text now with h | ⟨hm, hcr, hup⟩
    · rw [h]; exact ⟨hne, hts⟩
    · constructor
      · rw [hm]; simp
      · rw [hcr, hup]; exact hnow
  · rcases add_message_fst_cases c role text now with h | ⟨hm, _, _⟩
    · rw [h]; exact List.take_length c.messages
    · rw [hm]; exact List.take_left c.messages _

/-- C6 witness: a fresh creation through the service and an append on
the sample conversation. -/
theorem conversation_invariants_preserved_witness :
    (createConversationSvc ⟨[]⟩ "hello" none oid1 3 =
        (.ok createdConv, ⟨[(oid1, createdConv)]⟩) ∧
      sampleConv.messages ≠ [] ∧ sampleConv.created_at ≤ sampleConv.updated_at ∧
      sampleConv.created_at ≤ 3) ∧
    ((createdConv.messages ≠ [] ∧ createdConv.created_at ≤ createdConv.updated_at) ∧
      ((sampleConv.add_message "bot" "yo" 3).1.messages ≠ [] ∧
        (sampleConv.add_message "bot" "yo" 3).1.created_at ≤
          (sampleConv.add_message "bot" "yo" 3).1.updated_at) ∧
      (sampleConv.add_message "bot" "yo" 3).1.messages.take sampleConv.messages.length =
        sampleConv.messages) :=
  ⟨⟨rfl, by decide, by decide, by decide⟩,
    conversation_invariants_preserved ⟨[]⟩ "hello" none oid1 3 createdConv
      ⟨[(oid1, createdConv)]⟩ sampleConv "bot" "yo" rfl
      (by decide) (by decide) (by decide)⟩

/-- C2 counterexample: the claimed fallback chain does not match the
code. With a catalog holding ('debate','default') = "D" and
('chat','default') = "C" but no ('chat','fancy'), the claim predicts the
fallback ('chat','default') = "C"; the code returns "D", the
('debate','default') entry. And with a catalog lacking
('debate','default') altogether, the lookup raises a `KeyError` instead
of degrading to a hardcoded built-in template. -/
theorem get_prompt_template_fallback_cex :
    catalogLookup cexCatalog "chat" "fancy" = none ∧
    catalogLookup cexCatalog "chat" "default" = some "C" ∧
    getPromptTemplate cexCatalog "chat" "fancy" = .ok "D" ∧
    ("D" : String) ≠ "C" ∧
    catalogLookup cexCatalogNoDebate "chat" "fancy" = none ∧
    getPromptTemplate cexCatalogNoDebate "chat" "fancy" = .error (.keyError "default") :=
  ⟨rfl, rfl, rfl, by decide, rfl, rfl⟩

/-- C2 (amended): when the exact `(prompt_type, style)` key is present
its template is returned; when it is absent the code falls back to the
fixed `('debate', 'default')` catalog entry — regardless of the
requested type — and when that entry is itself absent the lookup raises
a `KeyError` (there is no hardcoded built-in template). -/
theorem get_prompt_template_fallback_behavior (cat : Catalog) (ptype style : String) :
    (∀ t, catalogLookup cat ptype style = some t →
      getPromptTemplate cat ptype style = .ok t) ∧
    (catalogLookup cat ptype style = none →
      ∀ t, catalogLookup cat "debate" "default" = some t →
        getPromptTemplate cat ptype style = .ok t) ∧
    (catalogLookup cat ptype style = none →
      catalogLookup cat "debate" "default" = none →
      getPromptTemplate cat ptype style = .error (.keyError "default")) := by
  refine ⟨?_, ?_, ?_⟩
  · intro t h
    unfold getPromptTemplate
    rw [h]
  · intro h t h2
    unfold getPromptTemplate
    rw [h, h2]
  · intro h h2
    unfold getPromptTemplate
    rw [h, h2]

/-- C2 witness: the fallback arm of the amended behavior at a concrete
catalog. -/
theorem get_prompt_template_fallback_behavior_witness :
    (catalogLookup cexCatalog "chat" "fancy" = none ∧
      catalogLookup cexCatalog "debate" "default" = some "D") ∧
    getPromptTemplate cexCatalog "chat" "fancy" = .ok "D" :=
  ⟨⟨rfl, rfl⟩,
    (get_prompt_template_fallback_behavior cexCatalog "chat" "fancy").2.1 rfl "D" rfl⟩

/-- C3: the failure taxonomy of the response pipeline. A reply that
parses but lacks the "text" field yields `ResponseParsingError` (never a
silent success); an empty or null transport output yields `OpenAIError`;
an unparseable reply yields `ResponseParsingError`; and the two failure
kinds are distinct. -/
theorem generate_response_error_taxonomy
    (parse : String → Option JObj) (prompts : Catalog) (ptype style : String)
    (c : Conversation) (now : Nat) (tmpl : String)
    (hmsgs : c.messages ≠ [])
    (htmpl : getPromptTemplate prompts ptype style = .ok tmpl) :
    (∀ s obj, s ≠ "" → parse s = some obj → jsonGet obj "text" = none →
      (generateDebateResponse parse (.content (some s)) prompts ptype style c now).2 =
        .error (.responseParsingError "Response missing required 'text' field")) ∧
    ((generateDebateResponse parse (.content none) prompts ptype style c now).2 =
        .error (.openAIError "Failed to generate response: Empty response from OpenAI") ∧
      (generateDebateResponse parse (.content (some "")) prompts ptype style c now).2 =
        .error (.openAIError "Failed to generate response: Empty response from OpenAI")) ∧
    (∀ s, s ≠ "" → parse s = none →
      (generateDebateResponse parse (.content (some s)) prompts ptype style c now).2 =
        .error (.responseParsingError "Invalid JSON response from AI")) ∧
    (∀ m1 m2, SvcError.openAIError m1 ≠ SvcError.responseParsingError m2) := by
  refine ⟨?_, ⟨?_, ?_⟩, ?_, ?_⟩
  · intro s obj hs hparse htext
    simp only [generateDebateResponse, if_neg hmsgs, htmpl, generateResponse,
      if_neg hs, hparse, htext]
  · simp only [generateDebateResponse, if_neg hmsgs, htmpl, generateResponse]
  · simp only [generateDebateResponse, if_neg hmsgs, htmpl, generateResponse,
      eq_self_iff_true, if_true]
  · intro s hs hparse
    simp only [generateDebateResponse, if_neg hmsgs, htmpl, generateResponse,
      if_neg hs, hparse]
  · intro m1 m2 h
    exact SvcError.noConfusion h

/-- C3 witness at concrete decoders and conversation. -/
theorem generate_response_error_taxonomy_witness :
    (sampleConv.messages ≠ [] ∧
      getPromptTemplate cexCatalog "debate" "default" = .ok "D") ∧
    (generateDebateResponse parseNoText (.content (some "x"))
        cexCatalog "debate" "default" sampleConv 5).2 =
      .error (.responseParsingError "Response missing required 'text' field") ∧
    (generateDebateResponse parseNoText (.content none)
        cexCatalog "debate" "default" sampleConv 5).2 =
      .error (.openAIError "Failed to generate response: Empty response from OpenAI") ∧
    (generateDebateResponse parseNone (.content (some "bad"))
        cexCatalog "debate" "default" sampleConv 5).2 =
      .error (.responseParsingError "Invalid JSON response from AI") := by
  have h1 := generate_response_error_taxonomy parseNoText cexCatalog "debate" "default"
    sampleConv 5 "D" (by decide) rfl
  have h2 := generate_response_error_taxonomy parseNone cexCatalog "debate" "default"
    sampleConv 5 "D" (by decide) rfl
  exact ⟨⟨by decide, rfl⟩,
    h1.1 "x" [("topic", "T")] (by decide) rfl rfl,
    h1.2.1.1,
    h2.2.2.1 "bad" (by decide) rfl⟩

/-- C8: when the validated reply carries a non-empty "topic" it
overwrites the conversation's topic; when the field is absent or empty
the topic is left exactly as it was. -/
theorem generate_debate_response_topic_update
    (parse : String → Option JObj) (prompts : Catalog) (ptype style : String)
    (c : Conversation) (now : Nat) (tmpl s text : String) (obj : JObj)
    (hmsgs : c.messages ≠ [])
    (htmpl : getPromptTemplate prompts ptype style = .ok tmpl)
    (hs : s ≠ "") (hparse : parse s = some obj)
    (htext : jsonGet obj "text" = some text) :
    (∀ tp, jsonGet obj "topic" = some tp → tp ≠ "" →
      (generateDebateResponse parse (.content (some s)) prompts ptype style c now).1.topic =
        some tp) ∧
    (jsonGet obj "topic" = none ∨ jsonGet obj "topic" = some "" →
      (generateDebateResponse parse (.content (some s)) prompts ptype style c now).1.topic =
        c.topic) := by
  constructor
  · intro tp htp htpne
    simp only [generateDebateResponse, if_neg hmsgs, htmpl, generateResponse,
      if_neg hs, hparse, htext, htp, if_neg htpne]
    have htopic := add_message_topic ({ c with topic := some tp }) "bot" text now
    rcases hadd : ({ c with topic := some tp } : Conversation).add_message "bot" text now
      with ⟨c2, r⟩
    rw [hadd] at htopic
    cases r <;> simpa using htopic
  · intro hcase
    have htopic := add_message_topic c "bot" text now
    rcases hadd : c.add_message "bot" text now with ⟨c2, r⟩
    rw [hadd] at htopic
    rcases hcase with htp | htp
    · simp only [generateDebateResponse, if_neg hmsgs, htmpl, generateResponse,
        if_neg hs, hparse, htext, htp, hadd]
      cases r <;> simpa using htopic
    · simp only [generateDebateResponse, if_neg hmsgs, htmpl, generateResponse,
        if_neg hs, hparse, htext, htp, eq_self_iff_true, if_true, hadd]
      cases r <;> simpa using htopic

/-- C8 witness: a reply with topic "Pets" overwrites, a reply without a
topic leaves the sample conversation's topic untouched. -/
theorem generate_debate_response_topic_update_witness :
    (sampleConv.messages ≠ [] ∧
      getPromptTemplate cexCatalog "debate" "default" = .ok "D" ∧
      ("x" : String) ≠ "" ∧ parseGood "x" = some [("topic", "Pets"), ("text", "Dogs rule")] ∧
      jsonGet [("topic", "Pets"), ("text", "Dogs rule")] "text" = some "Dogs rule") ∧
    (generateDebateResponse parseGood (.content (some "x"))
        cexCatalog "debate" "default" sampleConv 5).1.topic = some "Pets" ∧
    (generateDebateResponse parseNoTopic (.content (some "x"))
        cexCatalog "debate" "default" sampleConv 5).1.topic = sampleConv.topic := by
  have h1 := generate_debate_response_topic_update parseGood cexCatalog "debate" "default"
    sampleConv 5 "D" "x" "Dogs rule" [("topic", "Pets"), ("text", "Dogs rule")]
    (by decide) rfl (by decide) rfl rfl
  have h2 := generate_debate_response_topic_update parseNoTopic cexCatalog "debate" "default"
    sampleConv 5 "D" "x" "Dogs rule" [("text", "Dogs rule")]
    (by decide) rfl (by decide) rfl rfl
  exact ⟨⟨by decide, rfl, by decide, rfl, rfl⟩,
    h1.1 "Pets" rfl (by decide),
    h2.2 (Or.inl rfl)⟩

/-- A fetch with a valid, present id and a non-empty new message
appends the user turn to the fetched conversation. -/
theorem getConversation_found_appends
    {store : Store} {cid message : String} {now : Nat} {c : Conversation}
    (hvalid : objectIdIsValid cid = true)
    (hfound : store.getById cid = some c)
    (hmsg : pyStrip message ≠ "") (hmsgne : message ≠ "") :
    getConversation store cid (some message) now =
      .ok { c with
        messages := c.messages ++
          [{ role := "user", text := pyStrip message, timestamp := now }]
        updated_at := now } := by
  have hcidne : cid ≠ "" := by
    intro h
    rw [h] at hvalid
    exact absurd hvalid (by decide)
  have hguard : ¬(message = "" ∨ pyStrip message = "") := by
    rintro (h | h)
    · exact hmsgne h
    · exact hmsg h
  simp only [getConversation, if_neg hcidne, hvalid, hfound, if_neg hguard,
    Bool.true_eq_false, if_false, Conversation.add_message, Message.clean,
    if_pos (show ("user" : String) ∈ ROLE_CHOICES by decide), if_neg hmsg]

/-- C4: when the transport raises during an existing-conversation turn,
`handleTurn` surfaces the `OpenAIError` (`GenerationError`) and the
store is returned exactly as it was — the save step is never reached, so
no bot message is persisted. -/
theorem handle_turn_transport_failure_no_persist
    (store : Store) (cid message : String) (parse : String → Option JObj)
    (prompts : Catalog) (newId : String) (now : Nat) (c : Conversation)
    (m tmpl : String)
    (hmsg : pyStrip message ≠ "")
    (hvalid : objectIdIsValid cid = true)
    (hfound : store.getById cid = some c)
    (htmpl : getPromptTemplate prompts "debate" "default" = .ok tmpl) :
    handleTurn store (some cid) message parse (.transportFailure m) prompts newId now =
      (.error (.openAIError ("Failed to generate response: " ++ m)), store) := by
  have hmsgne : message ≠ "" := by
    intro h
    rw [h] at hmsg
    exact hmsg pyStrip_empty
  have hguard : ¬(message = "" ∨ pyStrip message = "") := by
    rintro (h | h)
    · exact hmsgne h
    · exact hmsg h
  have hget := @getConversation_found_appends store cid message now c
    hvalid hfound hmsg hmsgne
  have hne : ({ c with
      messages := c.messages ++
        [{ role := "user", text := pyStrip message, timestamp := now }]
      updated_at := now } : Conversation).messages ≠ [] := by
    simp
  simp only [handleTurn, if_neg hguard, hget, generateDebateResponse, if_neg hne,
    htmpl, generateResponse]

/-- C4 witness at a concrete store, catalog and transport failure. -/
theorem handle_turn_transport_failure_no_persist_witness :
    (pyStrip "yo" ≠ "" ∧ objectIdIsValid oid1 = true ∧
      sampleStore.getById oid1 = some { sampleConv with id := some oid1 } ∧
      getPromptTemplate cexCatalog "debate" "default" = .ok "D") ∧
    handleTurn sampleStore (some oid1) "yo" parseGood (.transportFailure "boom")
        cexCatalog oid2 5 =
      (.error (.openAIError ("Failed to generate response: " ++ "boom")), sampleStore) :=
  ⟨⟨by decide, by decide, rfl, rfl⟩,
    handle_turn_transport_failure_no_persist sampleStore oid1 "yo" parseGood cexCatalog
      oid2 5 { sampleConv with id := some oid1 } "boom" "D"
      (by decide) (by decide) rfl rfl⟩

/-- C9: a turn against a well-formed id that is absent from the store
raises `NotFoundError` — from `get_conversation` and through
`handleTurn` — and the store is returned unchanged (no write). -/
theorem handle_turn_not_found
    (store : Store) (cid message : String) (parse : String → Option JObj)
    (out : ModelOutput) (prompts : Catalog) (newId : String) (now : Nat)
    (hmsg : pyStrip message ≠ "")
    (hvalid : objectIdIsValid cid = true)
    (habsent : store.getById cid = none) :
    handleTurn store (some cid) message parse out prompts newId now =
      (.error (.notFoundError ("Conversation with ID " ++ cid ++ " not found")), store) ∧
    getConversation store cid (some message) now =
      .error (.notFoundError ("Conversation with ID " ++ cid ++ " not found")) := by
  have hcidne : cid ≠ "" := by
    intro h
    rw [h] at hvalid
    exact absurd hvalid (by decide)
  have hmsgne : message ≠ "" := by
    intro h
    rw [h] at hmsg
    exact hmsg pyStrip_empty
  have hguard : ¬(message = "" ∨ pyStrip message = "") := by
    rintro (h | h)
    · exact hmsgne h
    · exact hmsg h
  have hget : getConversation store cid (some message) now =
      .error (.notFoundError ("Conversation with ID " ++ cid ++ " not found")) := by
    simp only [getConversation, if_neg hcidne, hvalid, habsent,
      Bool.true_eq_false, if_false]
  exact ⟨by simp only [handleTurn, if_neg hguard, hget], hget⟩

/-- C9 witness: the sample store has no conversation under `oid2`. -/
theorem handle_turn_not_found_witness :
    (pyStrip "hello" ≠ "" ∧ objectIdIsValid oid2 = true ∧
      sampleStore.getById oid2 = none) ∧
    (handleTurn sampleStore (some oid2) "hello" parseGood (.content (some "x"))
        cexCatalog oid1 5 =
      (.error (.notFoundError ("Conversation with ID " ++ oid2 ++ " not found")),
        sampleStore) ∧
    getConversation sampleStore oid2 (some "hello") 5 =
      .error (.notFoundError ("Conversation with ID " ++ oid2 ++ " not found"))) :=
  ⟨⟨by decide, by decide, rfl⟩,
    handle_turn_not_found sampleStore oid2 "hello" parseGood (.content (some "x"))
      cexCatalog oid1 5 (by decide) (by decide) rfl⟩

/-- C10: an id that is not a syntactically valid ObjectId makes
`get_conversation` raise `ValueError` before the store is consulted (the
result does not depend on the store at all), and `NotFoundError` arises
only for well-formed ids whose conversation is absent. -/
theorem get_conversation_invalid_id_value_error
    (store : Store) (cid : String) (new_message : Option String) (now : Nat) :
    (objectIdIsValid cid = false →
      getConversation store cid new_message now =
        .error (.valueError (if cid = "" then "Conversation ID cannot be empty"
          else "Invalid conversation ID format")) ∧
      ∀ store' : Store, getConversation store' cid new_message now =
        getConversation store cid new_message now) ∧
    (∀ em, getConversation store cid new_message now = .error (.notFoundError em) →
      objectIdIsValid cid = true ∧ store.getById cid = none) := by
  constructor
  · intro hinvalid
    by_cases hc : cid = ""
    · subst hc
      exact ⟨by simp [getConversation], fun store' => by simp [getConversation]⟩
    · exact ⟨by simp [getConversation, hinvalid, hc],
        fun store' => by simp [getConversation, hinvalid, hc]⟩
  · intro em h
    by_cases hc : cid = ""
    · subst hc
      simp [getConversation] at h
    · by_cases hv : objectIdIsValid cid = true
      · refine ⟨hv, ?_⟩
        rcases hg : store.getById cid with _ | conv
        · rfl
        · exfalso
          rcases new_message with _ | msg
          · simp [getConversation, if_neg hc, hv, hg] at h
          · simp only [getConversation, if_neg hc, hv, hg, Bool.true_eq_false,
              if_false] at h
            split at h
            · simp at h
            · rcases hadd : conv.add_message "user" msg now with ⟨c1, r⟩
              rw [hadd] at h
              cases r with
              | ok v => simp at h
              | error e =>
                simp at h
                obtain ⟨em', hem⟩ := add_message_error_validation conv "user" msg now e
                  (by rw [hadd])
                rw [hem] at h
                exact SvcError.noConfusion h
      · exfalso
        have hfalse : objectIdIsValid cid = false := by
          cases hb : objectIdIsValid cid
          · rfl
          · exact absurd hb hv
        simp [getConversation, hc, hfalse] at h

/-- C10 witness: a malformed id is rejected with `ValueError` regardless
of the store. -/
theorem get_conversation_invalid_id_value_error_witness :
    objectIdIsValid "zzz" = false ∧
    (getConversation sampleStore "zzz" (some "hello") 5 =
        .error (.valueError (if ("zzz" : String) = "" then "Conversation ID cannot be empty"
          else "Invalid conversation ID format")) ∧
      ∀ store' : Store, getConversation store' "zzz" (some "hello") 5 =
        getConversation sampleStore "zzz" (some "hello") 5) :=
  ⟨by decide,
    (get_conversation_invalid_id_value_error sampleStore "zzz" (some "hello") 5).1
      (by decide)⟩
